import Mathlib

/-!
Verification development for the scribe-pdf-exporter bulk-export orchestrator.

The definitions below are a shallow embedding of the JavaScript sources:

* src/scribe-exporter-headless-only.js — the RateLimiter class (sliding
  60-second request window, adaptive backoff delay, cooldown) and the
  export loop that drives it;
* src/scribe-recursive.js — the per-document retry loop, the
  ProgressTracker, saveProgress checkpointing, href-based deduplication
  of discovered documents, filename construction in exportDocument, and
  the recursive folder exploration (exploreFolderRecursive /
  findSubfolders).

Times and delays are modelled as exact rationals (JavaScript numbers;
all values that the programs compute with here stay exact), lists of
DOM-extraction results as Lean lists, thrown errors as an explicit
result type, and the event-loop sleeps as explicit clock arithmetic:
a call that sleeps returns the amount of (virtual) time it suspended.
-/

namespace Scribe

/-- Configuration record RATE_LIMIT_CONFIG of
src/scribe-exporter-headless-only.js (requestsPerMinute 10, minDelayMs
3000, maxDelayMs 30000, backoffMultiplier 1.5, maxRetries 3,
cooldownPeriod 60000). -/
structure RateLimitConfig where
  requestsPerMinute : ℕ
  minDelayMs : ℚ
  maxDelayMs : ℚ
  backoffMultiplier : ℚ
  maxRetries : ℕ
  cooldownPeriod : ℚ
deriving Repr, DecidableEq

/-- Mutable state of the RateLimiter class: constructor fields
requestTimes, currentDelay, consecutiveErrors, lastRequestTime,
plus the config it was built with. -/
structure RateLimiter where
  config : RateLimitConfig
  requestTimes : List ℚ
  currentDelay : ℚ
  consecutiveErrors : ℕ
  lastRequestTime : ℚ
deriving Repr, DecidableEq

/-- The constructor `new RateLimiter(config)`. -/
def mkRateLimiter (cfg : RateLimitConfig) : RateLimiter :=
  { config := cfg
    requestTimes := []
    currentDelay := cfg.minDelayMs
    consecutiveErrors := 0
    lastRequestTime := 0 }

/-- First step of waitForNextSlot: `this.requestTimes =
this.requestTimes.filter(time => now - time < 60000)`. -/
def RateLimiter.pruneWindow (rl : RateLimiter) (now : ℚ) : List ℚ :=
  rl.requestTimes.filter (fun t => now - t < 60000)

/-- Rate-cap part of waitForNextSlot: when the pruned window already
holds requestsPerMinute entries, wait `Math.max(0, 60000 - (now -
oldestRequest))` where oldestRequest is `this.requestTimes[0]`. -/
def RateLimiter.rateCapWait (rl : RateLimiter) (now : ℚ) : ℚ :=
  let pruned := rl.pruneWindow now
  if rl.config.requestsPerMinute ≤ pruned.length then
    match pruned with
    | [] => 0
    | oldest :: _ => max 0 (60000 - (now - oldest))
  else 0

/-- Minimum-delay part of waitForNextSlot: if less than currentDelay
has passed since lastRequestTime, wait out the difference.  The source
computes timeSinceLastRequest from the `now` captured before the
rate-cap sleep; the model reproduces that. -/
def RateLimiter.adaptiveWait (rl : RateLimiter) (now : ℚ) : ℚ :=
  if now - rl.lastRequestTime < rl.currentDelay then
    rl.currentDelay - (now - rl.lastRequestTime)
  else 0

/-- waitForNextSlot() of src/scribe-exporter-headless-only.js, lines
32-59.  Input `now` is the value of Date.now() on entry; sleeps are
modelled by advancing the clock, so the returned rational is the
timestamp recorded by `this.requestTimes.push(Date.now())` after both
the rate-cap wait and the minimum-delay wait have elapsed. -/
def RateLimiter.waitForNextSlot (rl : RateLimiter) (now : ℚ) : RateLimiter × ℚ :=
  let recorded := now + rl.rateCapWait now + rl.adaptiveWait now
  ({ rl with requestTimes := rl.pruneWindow now ++ [recorded], lastRequestTime := recorded },
    recorded)

/-- handleSuccess(): reset currentDelay to minDelayMs, clear the
consecutive-error counter. -/
def RateLimiter.handleSuccess (rl : RateLimiter) : RateLimiter :=
  { rl with currentDelay := rl.config.minDelayMs, consecutiveErrors := 0 }

/-- handleError(): increment the counter and multiply currentDelay by
backoffMultiplier, capped at maxDelayMs. -/
def RateLimiter.handleError (rl : RateLimiter) : RateLimiter :=
  { rl with
    consecutiveErrors := rl.consecutiveErrors + 1
    currentDelay := min (rl.currentDelay * rl.config.backoffMultiplier) rl.config.maxDelayMs }

/-- reset(): empty the window, restore the minimum delay, clear the
error counter. -/
def RateLimiter.reset (rl : RateLimiter) : RateLimiter :=
  { rl with
    requestTimes := []
    currentDelay := rl.config.minDelayMs
    consecutiveErrors := 0 }

/-- applyCooldown(): sleep for config.cooldownPeriod, then reset().
Returns the new state and the time slept. -/
def RateLimiter.applyCooldown (rl : RateLimiter) : RateLimiter × ℚ :=
  (rl.reset, rl.config.cooldownPeriod)

/-- The adaptive-delay invariant: currentDelay stays between the
configured minimum and maximum. -/
def RateLimiter.delayInRange (rl : RateLimiter) : Prop :=
  rl.config.minDelayMs ≤ rl.currentDelay ∧ rl.currentDelay ≤ rl.config.maxDelayMs

/-- Outcome of one exportDocument(page, doc, downloadsDir) attempt:
either it returns, or it throws an Error with the given message. -/
inductive AttemptResult where
  | ok : AttemptResult
  | err : String → AttemptResult
deriving Repr, DecidableEq

/-- The rate-limit test in the export loop of
src/scribe-exporter-headless-only.js, lines 183-184:
`error.message.includes('429') || error.message.includes('rate limit')
|| error.message.includes('too many requests')`. -/
def isRateLimitError (msg : String) : Bool :=
  decide (("429").data <:+: msg.data) ||
    decide (("rate limit").data <:+: msg.data) ||
    decide (("too many requests").data <:+: msg.data)

/-- State of one iteration of the `while (retries < maxRetries &&
!exported)` loop of src/scribe-exporter-headless-only.js, lines
164-196, together with the shared counters, the module-level rate
limiter and a virtual clock. -/
structure ExportLoopState where
  retries : ℕ
  exported : Bool
  successCount : ℕ
  errorCount : ℕ
  limiter : RateLimiter
  clock : ℚ
deriving Repr

/-- One iteration of that loop, given the attempt's outcome.  On a
rate-limit error the source runs `retries++; rateLimiter.handleError();
... await rateLimiter.applyCooldown(); retries--`, so the retry charge
is taken back and the limiter is reset after the cooldown sleep. -/
def exportLoopStep (maxRetries : ℕ) (s : ExportLoopState) (r : AttemptResult) :
    ExportLoopState :=
  match r with
  | .ok =>
    { s with
      successCount := s.successCount + 1
      exported := true
      limiter := s.limiter.handleSuccess }
  | .err msg =>
    let retries := s.retries + 1
    let limiter := s.limiter.handleError
    if isRateLimitError msg then
      let cooled := limiter.applyCooldown
      { s with retries := retries - 1, limiter := cooled.1, clock := s.clock + cooled.2 }
    else if retries < maxRetries then
      let waited := limiter.waitForNextSlot s.clock
      { s with retries := retries, limiter := waited.1, clock := waited.2 }
    else
      { s with retries := retries, errorCount := s.errorCount + 1, limiter := limiter }

/-- A discovered document as built during discovery:
`{ href, title, folder }` (folder is the folder path string; the
canonical id is the href). -/
structure Document where
  href : String
  title : String
  folder : String
deriving Repr, DecidableEq

/-- Result of the per-document retry loop of src/scribe-recursive.js,
lines 329-349: whether the export succeeded, how many attempts were
made, and the last error caught. -/
structure DocResult where
  success : Bool
  attempts : ℕ
  lastError : Option String
deriving Repr, DecidableEq

/-- The loop `for (let retry = 0; retry < CONFIG.maxRetries; retry++)`
of src/scribe-recursive.js: `retry` is the index of the attempt about
to run and `remaining` the number of loop iterations left
(maxRetries - retry); on success the loop breaks, on error it stores
lastError and continues. -/
def retryFrom (attempt : ℕ → AttemptResult) (retry : ℕ) :
    ℕ → Option String → DocResult
  | 0, lastError => ⟨false, retry, lastError⟩
  | remaining + 1, lastError =>
    match attempt retry with
    | .ok => ⟨true, retry + 1, lastError⟩
    | .err e => retryFrom attempt (retry + 1) remaining (some e)

/-- Running the whole retry loop for one document: start at retry 0
with maxRetries iterations available and no recorded error. -/
def processDocument (maxRetries : ℕ) (attempt : ℕ → AttemptResult) : DocResult :=
  retryFrom attempt 0 maxRetries none

/-- Entry of ProgressTracker.failedDocs:
`{ title, error: error?.message, folder }`. -/
structure FailedDoc where
  title : String
  error : Option String
  folder : String
deriving Repr, DecidableEq

/-- The counters of the ProgressTracker class of
src/scribe-recursive.js (successful, failed, current, failedDocs). -/
structure ProgressTracker where
  successful : ℕ
  failed : ℕ
  current : ℕ
  failedDocs : List FailedDoc
deriving Repr, DecidableEq

/-- The ProgressTracker constructor: all counters start at zero.  This
is the only way the program ever creates a tracker. -/
def ProgressTracker.init : ProgressTracker := ⟨0, 0, 0, []⟩

/-- reportProgress(docTitle, success, error, folderPath): increment
`current`, then either `successful` or `failed`, appending to
failedDocs on failure. -/
def reportProgress (tr : ProgressTracker) (title : String) (success : Bool)
    (error : Option String) (folder : String) : ProgressTracker :=
  if success then
    { tr with current := tr.current + 1, successful := tr.successful + 1 }
  else
    { tr with
      current := tr.current + 1
      failed := tr.failed + 1
      failedDocs := tr.failedDocs ++ [⟨title, error, folder⟩] }

/-- The per-document export loop of downloadAllScribes()
(src/scribe-recursive.js, lines 315-361): for each document run the
retry loop, then record the outcome in the tracker.  `behavior` gives
the outcome of each attempt on each document (the environment the
browser presents). -/
def runExport (maxRetries : ℕ) (behavior : Document → ℕ → AttemptResult) :
    List Document → ProgressTracker → ProgressTracker
  | [], tr => tr
  | d :: rest, tr =>
    let r := processDocument maxRetries (behavior d)
    runExport maxRetries behavior rest
      (reportProgress tr d.title r.success r.lastError d.folder)

/-- The record written by saveProgress(progress, allDocuments,
currentIndex) to progress.json (src/scribe-recursive.js, lines
470-487): completed = currentIndex, total = allDocuments.length,
counts from the tracker, remaining = allDocuments.slice(currentIndex). -/
structure ProgressData where
  completed : ℕ
  total : ℕ
  successful : ℕ
  failed : ℕ
  remaining : List Document
deriving Repr, DecidableEq

/-- saveProgress builds the snapshot from the tracker and the slice of
not-yet-processed documents. -/
def saveProgress (tr : ProgressTracker) (allDocuments : List Document)
    (currentIndex : ℕ) : ProgressData :=
  ⟨currentIndex, allDocuments.length, tr.successful, tr.failed,
    allDocuments.drop currentIndex⟩

/-- The duplicate-removal step of src/scribe-recursive.js, lines
298-301: `allDocuments.filter((doc, index, self) => index ===
self.findIndex(d => d.href === doc.href))` — keep the element at a
position exactly when the first position holding its href is that
position. -/
def dedupByHref (docs : List Document) : List Document :=
  (docs.enum.filter
      (fun p => docs.findIdx (fun d => d.href == p.2.href) == p.1)).map Prod.snd

/-- The sanitiser `.replace(/[^a-z0-9]/gi, '_')`: every character that
is not an ASCII letter or digit becomes an underscore. -/
def sanitizeName (s : String) : String :=
  ⟨s.data.map (fun c => if c.isAlphanum then c else '_')⟩

/-- ASCII `.toLowerCase()` applied characterwise. -/
def lowerAscii (s : String) : String :=
  ⟨s.data.map Char.toLower⟩

/-- `document.title.replace(/[^a-z0-9]/gi, '_').toLowerCase()`. -/
def cleanTitle (title : String) : String :=
  lowerAscii (sanitizeName title)

/-- Filename built by exportDocument of src/scribe-recursive.js, lines
450-455: folder prefix (sanitised, only when the folder string is
non-empty — JS truthiness), cleaned title, and a `Date.now()`
timestamp suffix. -/
def exportFilename (doc : Document) (timestamp : ℕ) : String :=
  (if doc.folder = "" then "" else sanitizeName doc.folder ++ "_") ++
    cleanTitle doc.title ++ "_" ++ Nat.repr timestamp ++ ".pdf"

/-- Filename built by exportDocument of
src/scribe-exporter-headless-only.js, lines 379-381: the cleaned title
alone, no folder prefix and no disambiguating suffix. -/
def headlessFilename (title : String) : String :=
  cleanTitle title ++ ".pdf"

/-- The text filter of findSubfolders (src/scribe-recursive.js, lines
199-227): keep non-empty texts shorter than 50 characters that contain
none of 'http', '@', 'Document', 'Export', 'Share'. -/
def goodFolderText (t : String) : Bool :=
  decide (0 < t.length) && decide (t.length < 50) &&
    !(decide (("http").data <:+: t.data)) &&
    !(decide (("@").data <:+: t.data)) &&
    !(decide (("Document").data <:+: t.data)) &&
    !(decide (("Export").data <:+: t.data)) &&
    !(decide (("Share").data <:+: t.data))

/-- Helper for uniqueFirst: keep list elements not seen before,
remembering the ones already emitted. -/
def uniqueFirstAux (seen : List String) : List String → List String
  | [] => []
  | s :: rest =>
    if seen.contains s then uniqueFirstAux seen rest
    else s :: uniqueFirstAux (s :: seen) rest

/-- `[...new Set(folders)]`: deduplication keeping the first
occurrence of each string, in order. -/
def uniqueFirst (l : List String) : List String :=
  uniqueFirstAux [] l

/-- findSubfolders: filter the visible texts, deduplicate, and
`slice(0, 10)` — the breadth limit per level. -/
def findSubfolders (texts : List String) : List String :=
  (uniqueFirst (texts.filter goodFolderText)).take 10

/-- Skeleton of exploreFolderRecursive (src/scribe-recursive.js, lines
107-169): after navigating to a folder path, read the page's texts
(`view path`), detect subfolders, and recurse into each of them.  The
source recursion carries no depth parameter; `depth` here models the
call-stack budget, so `exploreWithin view depth path = true` means the
exploration rooted at `path` completes using at most `depth` nested
calls.  The source terminates on a hierarchy exactly when some finite
budget suffices. -/
def exploreWithin (view : List String → List String) :
    ℕ → List String → Bool
  | 0, _ => false
  | depth + 1, path =>
    (findSubfolders (view path)).all
      (fun sub => exploreWithin view depth (path ++ [sub]))

/-- Termination of the recursive exploration started at `path`: some
finite call-stack budget completes it. -/
def explorationTerminates (view : List String → List String)
    (path : List String) : Prop :=
  ∃ depth, exploreWithin view depth path = true

/-- Concrete documents for the discovery-dedup scenario of the spec:
folder A holds doc1 and doc2, folder B holds a second sighting of doc2
(same canonical href, B's folder path) and doc3. -/
def exDoc1 : Document := ⟨"https://scribehow.com/viewer/doc1", "Doc One", "A"⟩

/-- Second document of folder A. -/
def exDoc2 : Document := ⟨"https://scribehow.com/viewer/doc2", "Doc Two", "A"⟩

/-- The duplicate sighting of doc2 from folder B: same href, different
folder path. -/
def exDoc2B : Document := ⟨"https://scribehow.com/viewer/doc2", "Doc Two", "B"⟩

/-- Third document, in folder B. -/
def exDoc3 : Document := ⟨"https://scribehow.com/viewer/doc3", "Doc Three", "B"⟩

/-- The flattened discovery result for folders A and B. -/
def exDocs : List Document := [exDoc1, exDoc2, exDoc2B, exDoc3]

/-- The fourth document of the checkpoint-resume scenario. -/
def exDoc4 : Document := ⟨"https://scribehow.com/viewer/doc4", "Doc Four", "Root"⟩

/-- The fifth document of the checkpoint-resume scenario. -/
def exDoc5 : Document := ⟨"https://scribehow.com/viewer/doc5", "Doc Five", "Root"⟩

/-- The concrete RATE_LIMIT_CONFIG of
src/scribe-exporter-headless-only.js. -/
def rateCfg : RateLimitConfig :=
  { requestsPerMinute := 10
    minDelayMs := 3000
    maxDelayMs := 30000
    backoffMultiplier := 3 / 2
    maxRetries := 3
    cooldownPeriod := 60000 }

/-- A one-request-per-minute configuration used to exercise the hard
cap on a small window. -/
def capCfg : RateLimitConfig :=
  { rateCfg with requestsPerMinute := 1 }

/-- A limiter whose window is already full for capCfg: one request
recorded at time 0. -/
def exLimiter : RateLimiter :=
  { config := capCfg
    requestTimes := [0]
    currentDelay := 3000
    consecutiveErrors := 0
    lastRequestTime := 0 }

/-- A mid-run state of the headless export loop. -/
def exLoopState : ExportLoopState :=
  { retries := 1
    exported := false
    successCount := 2
    errorCount := 0
    limiter := mkRateLimiter rateCfg
    clock := 0 }

end Scribe

namespace Scribe

/-! ## Shared lemmas -/

/-- Multiplying a capped value and re-capping is the same as capping
the uncapped product, for a multiplier of at least one. -/
theorem min_mul_cap (x M m : ℚ) (hx : 0 ≤ x) (hM : 0 ≤ M) (hm : 1 ≤ m) :
    min (min x M * m) M = min (x * m) M := by
  rcases le_total x M with h | h
  · rw [min_eq_left h]
  · rw [min_eq_right h, min_eq_right (le_mul_of_one_le_right hM hm),
      min_eq_right (h.trans (le_mul_of_one_le_right hx hm))]

/-- Iterating handleError from a state at the minimum delay with a
clear error counter: the delay follows capped exponential growth and
the counter counts the errors.  The configuration is carried along
unchanged. -/
theorem handleError_iterate (rl : RateLimiter)
    (h0 : 0 ≤ rl.config.minDelayMs)
    (h1 : rl.config.minDelayMs ≤ rl.config.maxDelayMs)
    (hm : 1 ≤ rl.config.backoffMultiplier)
    (hd : rl.currentDelay = rl.config.minDelayMs)
    (he : rl.consecutiveErrors = 0) (k : ℕ) :
    (RateLimiter.handleError^[k] rl).config = rl.config ∧
    (RateLimiter.handleError^[k] rl).currentDelay =
      min (rl.config.minDelayMs * rl.config.backoffMultiplier ^ k)
        rl.config.maxDelayMs ∧
    (RateLimiter.handleError^[k] rl).consecutiveErrors = k := by
  induction k with
  | zero =>
    refine ⟨rfl, ?_, he⟩
    rw [Function.iterate_zero_apply, hd, pow_zero, mul_one, min_eq_left h1]
  | succ n ih =>
    obtain ⟨hc, hdel, herr⟩ := ih
    rw [Function.iterate_succ_apply']
    refine ⟨hc, ?_, ?_⟩
    · show min ((RateLimiter.handleError^[n] rl).currentDelay *
          (RateLimiter.handleError^[n] rl).config.backoffMultiplier)
          (RateLimiter.handleError^[n] rl).config.maxDelayMs = _
      rw [hc, hdel,
        min_mul_cap _ _ _
          (mul_nonneg h0 (pow_nonneg (zero_le_one.trans hm) n))
          (h0.trans h1) hm,
        mul_assoc, ← pow_succ]
    · show (RateLimiter.handleError^[n] rl).consecutiveErrors + 1 = n + 1
      rw [herr]

/-- The adaptive wait is never negative. -/
theorem adaptiveWait_nonneg (rl : RateLimiter) (now : ℚ) :
    0 ≤ rl.adaptiveWait now := by
  unfold RateLimiter.adaptiveWait
  split
  · linarith
  · exact le_refl 0

end Scribe

namespace Scribe

/-! ## Claim theorems: RateLimiter -/

/-- C4: starting from a freshly constructed RateLimiter, or right
after any handleSuccess(), k consecutive handleError() calls leave
currentDelay = min(minDelayMs * backoffMultiplier^k, maxDelayMs) and
the consecutive-error counter at k (configuration assumed to have
nonnegative minimum delay, minDelayMs ≤ maxDelayMs and a multiplier of
at least 1, as all configurations in the sources do). -/
theorem c4_backoff_growth (cfg : RateLimitConfig)
    (h0 : 0 ≤ cfg.minDelayMs) (h1 : cfg.minDelayMs ≤ cfg.maxDelayMs)
    (hm : 1 ≤ cfg.backoffMultiplier) (k : ℕ) :
    ((RateLimiter.handleError^[k] (mkRateLimiter cfg)).currentDelay =
        min (cfg.minDelayMs * cfg.backoffMultiplier ^ k) cfg.maxDelayMs ∧
      (RateLimiter.handleError^[k] (mkRateLimiter cfg)).consecutiveErrors = k) ∧
    ∀ rl : RateLimiter, rl.config = cfg →
      (RateLimiter.handleError^[k] rl.handleSuccess).currentDelay =
          min (cfg.minDelayMs * cfg.backoffMultiplier ^ k) cfg.maxDelayMs ∧
      (RateLimiter.handleError^[k] rl.handleSuccess).consecutiveErrors = k := by
  constructor
  · have h := handleError_iterate (mkRateLimiter cfg) h0 h1 hm rfl rfl k
    exact ⟨h.2.1, h.2.2⟩
  · intro rl hcfg
    have h := handleError_iterate rl.handleSuccess
      (by simpa [RateLimiter.handleSuccess, hcfg] using h0)
      (by simpa [RateLimiter.handleSuccess, hcfg] using h1)
      (by simpa [RateLimiter.handleSuccess, hcfg] using hm) rfl rfl k
    refine ⟨?_, h.2.2⟩
    rw [h.2.1]
    simp [RateLimiter.handleSuccess, hcfg]

/-- Witness for C4 at the shipped configuration (3000, 1.5, 30000) and
k = 4 errors. -/
theorem c4_backoff_growth_witness :
    (RateLimiter.handleError^[4] (mkRateLimiter rateCfg)).currentDelay =
        min (3000 * (3 / 2 : ℚ) ^ 4) 30000 ∧
    (RateLimiter.handleError^[4] (mkRateLimiter rateCfg)).consecutiveErrors = 4 :=
  (c4_backoff_growth rateCfg (by norm_num [rateCfg]) (by norm_num [rateCfg])
    (by norm_num [rateCfg]) 4).1

/-- C10: under a configuration with 0 ≤ minDelayMs ≤ maxDelayMs and
backoffMultiplier ≥ 1, construction establishes minDelayMs ≤
currentDelay ≤ maxDelayMs, and waitForNextSlot, handleSuccess,
handleError, applyCooldown and reset all preserve it. -/
theorem c10_delay_invariant (cfg : RateLimitConfig)
    (h0 : 0 ≤ cfg.minDelayMs) (h1 : cfg.minDelayMs ≤ cfg.maxDelayMs)
    (hm : 1 ≤ cfg.backoffMultiplier) :
    (mkRateLimiter cfg).delayInRange ∧
    ∀ rl : RateLimiter, rl.config = cfg → rl.delayInRange →
      (∀ now : ℚ, (rl.waitForNextSlot now).1.delayInRange) ∧
      rl.handleSuccess.delayInRange ∧
      rl.handleError.delayInRange ∧
      rl.applyCooldown.1.delayInRange ∧
      rl.reset.delayInRange := by
  refine ⟨⟨le_refl _, h1⟩, ?_⟩
  intro rl hcfg hinv
  obtain ⟨hlo, hhi⟩ := hinv
  refine ⟨?_, ?_, ?_, ?_, ?_⟩
  · intro now
    exact ⟨hlo, hhi⟩
  · exact ⟨le_refl _, by simpa [RateLimiter.handleSuccess, hcfg] using h1⟩
  · constructor
    · refine le_min ?_ (by simpa [RateLimiter.handleError, hcfg] using h1)
      calc rl.config.minDelayMs ≤ rl.currentDelay := hlo
        _ ≤ rl.currentDelay * rl.config.backoffMultiplier :=
          le_mul_of_one_le_right
            (le_trans (by simpa [hcfg] using h0) hlo) (by simpa [hcfg] using hm)
    · exact min_le_right _ _
  · exact ⟨le_refl _, by simpa [RateLimiter.applyCooldown, RateLimiter.reset, hcfg] using h1⟩
  · exact ⟨le_refl _, by simpa [RateLimiter.reset, hcfg] using h1⟩

/-- Witness for C10: the invariant holds for a freshly constructed
limiter at the shipped configuration and survives a handleError(). -/
theorem c10_delay_invariant_witness :
    (mkRateLimiter rateCfg).delayInRange ∧
    (mkRateLimiter rateCfg).handleError.delayInRange :=
  ⟨(c10_delay_invariant rateCfg (by norm_num [rateCfg]) (by norm_num [rateCfg])
      (by norm_num [rateCfg])).1,
    ((c10_delay_invariant rateCfg (by norm_num [rateCfg]) (by norm_num [rateCfg])
        (by norm_num [rateCfg])).2 (mkRateLimiter rateCfg) rfl
      (c10_delay_invariant rateCfg (by norm_num [rateCfg]) (by norm_num [rateCfg])
        (by norm_num [rateCfg])).1).2.2.1⟩

/-- C3: when the request window already holds requestsPerMinute
timestamps, all within the trailing 60-second window, the next
waitForNextSlot call suspends at least until the oldest recorded
timestamp is 60 seconds old, and only then appends the new action's
timestamp to the window; the call is delayed, never rejected. -/
theorem c3_hard_cap (rl : RateLimiter) (now oldest : ℚ) (rest : List ℚ)
    (htimes : rl.requestTimes = oldest :: rest)
    (hwin : ∀ t ∈ rl.requestTimes, now - t < 60000)
    (hfull : rl.config.requestsPerMinute ≤ rl.requestTimes.length) :
    oldest + 60000 ≤ (rl.waitForNextSlot now).2 ∧
    (rl.waitForNextSlot now).1.requestTimes =
      rl.requestTimes ++ [(rl.waitForNextSlot now).2] := by
  have hprune : rl.pruneWindow now = rl.requestTimes := by
    unfold RateLimiter.pruneWindow
    exact List.filter_eq_self.mpr (fun t ht => by simpa using hwin t ht)
  have hcap : rl.rateCapWait now = max 0 (60000 - (now - oldest)) := by
    unfold RateLimiter.rateCapWait
    rw [hprune, htimes]
    rw [if_pos (by simpa [htimes] using hfull)]
  constructor
  · show oldest + 60000 ≤ now + rl.rateCapWait now + rl.adaptiveWait now
    have h1 : 60000 - (now - oldest) ≤ rl.rateCapWait now := by
      rw [hcap]; exact le_max_right _ _
    have h2 : 0 ≤ rl.adaptiveWait now := adaptiveWait_nonneg rl now
    linarith
  · show rl.pruneWindow now ++ [now + rl.rateCapWait now + rl.adaptiveWait now] =
      rl.requestTimes ++ [now + rl.rateCapWait now + rl.adaptiveWait now]
    rw [hprune]

/-- Witness for C3: a limiter configured for one request per minute
whose window holds a request at time 0; a call at time 10 is pushed to
at least time 60000. -/
theorem c3_hard_cap_witness :
    (0 : ℚ) + 60000 ≤ (exLimiter.waitForNextSlot 10).2 ∧
    (exLimiter.waitForNextSlot 10).1.requestTimes =
      exLimiter.requestTimes ++ [(exLimiter.waitForNextSlot 10).2] :=
  c3_hard_cap exLimiter 10 0 [] rfl
    (by intro t ht; simp [exLimiter] at ht; subst ht; norm_num)
    (by norm_num [exLimiter, capCfg, rateCfg])

/-- C6: an export attempt failing with an explicit rate-limit signal
(a message containing 429 / rate limit / too many requests) makes
the loop call applyCooldown — the clock advances by the full
cooldownPeriod and the limiter's window, delay and error counter are
fully reset — while the retry counter, the error count and the
success count are unchanged: the event is charged neither against
maxRetries nor as a document failure. -/
theorem c6_rate_limit_cooldown (maxRetries : ℕ) (s : ExportLoopState) (msg : String)
    (hmsg : isRateLimitError msg = true) :
    (exportLoopStep maxRetries s (.err msg)).retries = s.retries ∧
    (exportLoopStep maxRetries s (.err msg)).errorCount = s.errorCount ∧
    (exportLoopStep maxRetries s (.err msg)).successCount = s.successCount ∧
    (exportLoopStep maxRetries s (.err msg)).limiter.requestTimes = [] ∧
    (exportLoopStep maxRetries s (.err msg)).limiter.currentDelay =
      s.limiter.config.minDelayMs ∧
    (exportLoopStep maxRetries s (.err msg)).limiter.consecutiveErrors = 0 ∧
    (exportLoopStep maxRetries s (.err msg)).clock =
      s.clock + s.limiter.config.cooldownPeriod := by
  simp [exportLoopStep, hmsg, RateLimiter.applyCooldown, RateLimiter.reset,
    RateLimiter.handleError]

/-- Witness for C6 at a concrete mid-run state and the message of an
HTTP 429 failure. -/
theorem c6_rate_limit_cooldown_witness :
    (exportLoopStep 3 exLoopState (.err ("Export failed: HTTP 429"))).retries =
      exLoopState.retries ∧
    (exportLoopStep 3 exLoopState (.err ("Export failed: HTTP 429"))).errorCount =
      exLoopState.errorCount ∧
    (exportLoopStep 3 exLoopState (.err ("Export failed: HTTP 429"))).successCount =
      exLoopState.successCount ∧
    (exportLoopStep 3 exLoopState (.err ("Export failed: HTTP 429"))).limiter.requestTimes = [] ∧
    (exportLoopStep 3 exLoopState (.err ("Export failed: HTTP 429"))).limiter.currentDelay =
      exLoopState.limiter.config.minDelayMs ∧
    (exportLoopStep 3 exLoopState (.err ("Export failed: HTTP 429"))).limiter.consecutiveErrors = 0 ∧
    (exportLoopStep 3 exLoopState (.err ("Export failed: HTTP 429"))).clock =
      exLoopState.clock + exLoopState.limiter.config.cooldownPeriod :=
  c6_rate_limit_cooldown 3 exLoopState ("Export failed: HTTP 429") (by decide)

end Scribe

namespace Scribe

/-! ## Shared lemmas: retry loop and progress tracker -/

/-- When every attempt throws, the retry loop runs all its remaining
iterations, ends unsuccessfully, and carries the error of the last
attempt it made. -/
theorem retryFrom_allFail (attempt : ℕ → AttemptResult) (errs : ℕ → String)
    (h : ∀ k, attempt k = .err (errs k)) :
    ∀ (remaining retry : ℕ) (lastError : Option String),
      retryFrom attempt retry remaining lastError =
        ⟨false, retry + remaining,
          if remaining = 0 then lastError else some (errs (retry + remaining - 1))⟩ := by
  intro remaining
  induction remaining with
  | zero =>
    intro retry lastError
    simp [retryFrom]
  | succ n ih =>
    intro retry lastError
    rw [retryFrom, h retry]
    show retryFrom attempt (retry + 1) n (some (errs retry)) = _
    rw [ih (retry + 1) (some (errs retry))]
    by_cases hn : n = 0
    · subst hn
      simp
    · have h1 : retry + 1 + n = retry + (n + 1) := by omega
      have h2 : retry + 1 + n - 1 = retry + (n + 1) - 1 := by omega
      simp [hn, h1, h2]

/-- The retry loop never makes more attempts than it has iterations. -/
theorem retryFrom_attempts_le (attempt : ℕ → AttemptResult) :
    ∀ (remaining retry : ℕ) (lastError : Option String),
      (retryFrom attempt retry remaining lastError).attempts ≤ retry + remaining := by
  intro remaining
  induction remaining with
  | zero =>
    intro retry lastError
    simp [retryFrom]
  | succ n ih =>
    intro retry lastError
    rw [retryFrom]
    cases attempt retry with
    | ok => simp
    | err e =>
      calc (retryFrom attempt (retry + 1) n (some e)).attempts
          ≤ retry + 1 + n := ih (retry + 1) (some e)
        _ = retry + (n + 1) := by omega

/-- reportProgress always advances the completion counter by one. -/
theorem reportProgress_current (tr : ProgressTracker) (title : String)
    (success : Bool) (error : Option String) (folder : String) :
    (reportProgress tr title success error folder).current = tr.current + 1 := by
  unfold reportProgress
  split <;> rfl

/-- reportProgress adds one to exactly one of the success/failure
counters. -/
theorem reportProgress_sum (tr : ProgressTracker) (title : String)
    (success : Bool) (error : Option String) (folder : String) :
    (reportProgress tr title success error folder).successful +
      (reportProgress tr title success error folder).failed =
      tr.successful + tr.failed + 1 := by
  unfold reportProgress
  split
  · show tr.successful + 1 + tr.failed = tr.successful + tr.failed + 1
    omega
  · rfl

/-- reportProgress never removes failed-job entries. -/
theorem reportProgress_failedDocs_mono (tr : ProgressTracker) (title : String)
    (success : Bool) (error : Option String) (folder : String) (x : FailedDoc)
    (hx : x ∈ tr.failedDocs) :
    x ∈ (reportProgress tr title success error folder).failedDocs := by
  unfold reportProgress
  split
  · exact hx
  · exact List.mem_append_left _ hx

/-- The export loop processes every document in its queue: each one
advances the completion counter. -/
theorem runExport_current (maxRetries : ℕ)
    (behavior : Document → ℕ → AttemptResult) :
    ∀ (docs : List Document) (tr : ProgressTracker),
      (runExport maxRetries behavior docs tr).current = tr.current + docs.length := by
  intro docs
  induction docs with
  | nil =>
    intro tr
    simp [runExport]
  | cons d rest ih =>
    intro tr
    rw [runExport, ih, reportProgress_current]
    simp
    omega

/-- Each processed document is counted as exactly one success or one
failure. -/
theorem runExport_sum (maxRetries : ℕ)
    (behavior : Document → ℕ → AttemptResult) :
    ∀ (docs : List Document) (tr : ProgressTracker),
      (runExport maxRetries behavior docs tr).successful +
        (runExport maxRetries behavior docs tr).failed =
        tr.successful + tr.failed + docs.length := by
  intro docs
  induction docs with
  | nil =>
    intro tr
    simp [runExport]
  | cons d rest ih =>
    intro tr
    rw [runExport, ih, reportProgress_sum]
    simp [List.length_cons]
    omega

/-- Failed-job entries survive the rest of the run. -/
theorem runExport_failedDocs_mono (maxRetries : ℕ)
    (behavior : Document → ℕ → AttemptResult) :
    ∀ (docs : List Document) (tr : ProgressTracker) (x : FailedDoc),
      x ∈ tr.failedDocs → x ∈ (runExport maxRetries behavior docs tr).failedDocs := by
  intro docs
  induction docs with
  | nil =>
    intro tr x hx
    exact hx
  | cons d rest ih =>
    intro tr x hx
    exact ih _ x (reportProgress_failedDocs_mono _ _ _ _ _ x hx)

end Scribe

namespace Scribe

/-! ## Claim theorems: retry policy and checkpointing -/

/-- C5: a document whose export throws a transient error on every
attempt gets exactly maxRetries attempts, after which it is marked
failed with the last classified error recorded in the tracker's
failed-jobs list; no retry loop ever exceeds maxRetries attempts, and
the run continues through every remaining queued document. -/
theorem c5_transient_exhaustion (maxRetries : ℕ) (hpos : 0 < maxRetries)
    (attempt : ℕ → AttemptResult) (errs : ℕ → String)
    (hfail : ∀ k, attempt k = .err (errs k)) :
    processDocument maxRetries attempt =
      ⟨false, maxRetries, some (errs (maxRetries - 1))⟩ ∧
    (∀ att : ℕ → AttemptResult,
      (processDocument maxRetries att).attempts ≤ maxRetries) ∧
    ∀ (behavior : Document → ℕ → AttemptResult) (d : Document)
        (rest : List Document) (tr : ProgressTracker), behavior d = attempt →
      (⟨d.title, some (errs (maxRetries - 1)), d.folder⟩ : FailedDoc) ∈
          (runExport maxRetries behavior (d :: rest) tr).failedDocs ∧
      (runExport maxRetries behavior (d :: rest) tr).current =
        tr.current + (1 + rest.length) := by
  have hproc : processDocument maxRetries attempt =
      ⟨false, maxRetries, some (errs (maxRetries - 1))⟩ := by
    unfold processDocument
    rw [retryFrom_allFail attempt errs hfail maxRetries 0 none]
    simp [Nat.pos_iff_ne_zero.mp hpos]
  refine ⟨hproc, ?_, ?_⟩
  · intro att
    simpa using retryFrom_attempts_le att maxRetries 0 none
  · intro behavior d rest tr hbd
    constructor
    · rw [runExport, hbd, hproc]
      refine runExport_failedDocs_mono maxRetries behavior rest _ _ ?_
      unfold reportProgress
      simp
    · rw [runExport_current]
      simp [List.length_cons]
      omega

/-- Witness for C5: with maxRetries 3 and every attempt failing with
the transient export-surface error, the job fails after exactly 3
attempts, the failure is recorded, and the run still processes the
rest of the queue. -/
theorem c5_transient_exhaustion_witness :
    processDocument 3 (fun _ => .err ("Could not find PDF Export button")) =
      ⟨false, 3, some ("Could not find PDF Export button")⟩ ∧
    (⟨exDoc4.title, some ("Could not find PDF Export button"), exDoc4.folder⟩ : FailedDoc) ∈
      (runExport 3
        (fun d => if d.href == exDoc4.href then
            (fun _ => .err ("Could not find PDF Export button")) else fun _ => .ok)
        [exDoc4, exDoc5] ProgressTracker.init).failedDocs :=
  ⟨(c5_transient_exhaustion 3 (by decide)
      (fun _ => .err ("Could not find PDF Export button"))
      (fun _ => ("Could not find PDF Export button")) (fun _ => rfl)).1,
    ((c5_transient_exhaustion 3 (by decide)
        (fun _ => .err ("Could not find PDF Export button"))
        (fun _ => ("Could not find PDF Export button")) (fun _ => rfl)).2.2
      (fun d => if d.href == exDoc4.href then
          (fun _ => .err ("Could not find PDF Export button")) else fun _ => .ok)
      exDoc4 [exDoc5] ProgressTracker.init (by simp)).1⟩

/-- C1 counterexample: a document whose every attempt raises the
session-expired error IS retried locally by the code — the retry loop
of src/scribe-recursive.js makes all 3 configured attempts (its retry
counter reaches maxRetries), instead of stopping after the first
attempt as an escalated, non-locally-retried error would. -/
theorem c1_counterexample :
    (processDocument 3 (fun _ => .err ("Session expired"))).attempts = 3 ∧
    ¬ (processDocument 3 (fun _ => .err ("Session expired"))).attempts ≤ 1 := by
  decide

/-- C1 amended: a session-expired error is handled exactly like any
other export error — retried locally up to maxRetries attempts, each
attempt incrementing the retry counter, after which the document is
marked failed with the session-expired error recorded; the run then
simply continues through the remaining queue in order (no
re-authentication step exists, the document is not re-queued, and the
final completion count is the plain queue length). -/
theorem c1_amended_session_retried (maxRetries : ℕ) (hpos : 0 < maxRetries)
    (attempt : ℕ → AttemptResult)
    (hfail : ∀ k, attempt k = .err ("Session expired")) :
    processDocument maxRetries attempt =
      ⟨false, maxRetries, some ("Session expired")⟩ ∧
    ∀ (behavior : Document → ℕ → AttemptResult) (docs : List Document)
        (tr : ProgressTracker),
      (runExport maxRetries behavior docs tr).current = tr.current + docs.length := by
  constructor
  · unfold processDocument
    rw [retryFrom_allFail attempt (fun _ => ("Session expired")) hfail maxRetries 0 none]
    simp [Nat.pos_iff_ne_zero.mp hpos]
  · intro behavior docs tr
    exact runExport_current maxRetries behavior docs tr

/-- Witness for C1's amended statement at maxRetries 3. -/
theorem c1_amended_session_retried_witness :
    processDocument 3 (fun _ => .err ("Session expired")) =
      ⟨false, 3, some ("Session expired")⟩ ∧
    (runExport 3 (fun _ _ => .err ("Session expired")) [exDoc4, exDoc5]
        ProgressTracker.init).current = 0 + 2 :=
  ⟨(c1_amended_session_retried 3 (by decide) (fun _ => .err ("Session expired"))
      (fun _ => rfl)).1,
    (c1_amended_session_retried 3 (by decide) (fun _ => .err ("Session expired"))
        (fun _ => rfl)).2 (fun _ _ => .err ("Session expired"))
      [exDoc4, exDoc5] ProgressTracker.init⟩

/-- C2 counterexample: the spec's resume scenario — a snapshot with
remainingQueue [d4, d5] and prior successCount 3 — cannot produce a
final completed count of 5: no code path reads progress.json, and the
only tracker the program ever constructs starts at zero, so a run over
the remaining queue with both exports succeeding reports successCount
2 and completed 2, not 5. -/
theorem c2_counterexample :
    (runExport 3 (fun _ _ => .ok) [exDoc4, exDoc5] ProgressTracker.init).successful = 2 ∧
    (runExport 3 (fun _ _ => .ok) [exDoc4, exDoc5] ProgressTracker.init).current = 2 ∧
    ¬ (runExport 3 (fun _ _ => .ok) [exDoc4, exDoc5] ProgressTracker.init).current = 5 := by
  decide

/-- C2 amended: the checkpoint written after i processed documents
records exactly the unprocessed suffix of the queue as its remaining
list, with completed = i and successful + failed = i; processed and
remaining documents are disjoint when the queue has no duplicates.
But snapshots are write-only — every run constructs its tracker at
zero, so a run over the snapshot's remaining queue restarts the
counts at zero instead of adding to the prior base. -/
theorem c2_amended_checkpoint (maxRetries : ℕ)
    (behavior : Document → ℕ → AttemptResult) (docs : List Document) (i : ℕ)
    (hi : i ≤ docs.length) :
    (saveProgress (runExport maxRetries behavior (docs.take i) ProgressTracker.init)
        docs i).remaining = docs.drop i ∧
    (saveProgress (runExport maxRetries behavior (docs.take i) ProgressTracker.init)
        docs i).completed = i ∧
    (runExport maxRetries behavior (docs.take i) ProgressTracker.init).successful +
      (runExport maxRetries behavior (docs.take i) ProgressTracker.init).failed = i ∧
    (docs.Nodup → ∀ d ∈ docs.take i, d ∉ docs.drop i) ∧
    (runExport maxRetries behavior (docs.drop i) ProgressTracker.init).current =
      (docs.drop i).length := by
  refine ⟨rfl, rfl, ?_, ?_, ?_⟩
  · rw [runExport_sum]
    simp [ProgressTracker.init, List.length_take, min_eq_left hi]
  · intro hnd d hdin
    exact fun hdrop =>
      (List.disjoint_take_drop hnd (le_refl i)) hdin hdrop
  · rw [runExport_current]
    simp [ProgressTracker.init]

/-- Witness for C2's amended statement: checkpoint after 2 of the 4
discovered documents, all exports succeeding. -/
theorem c2_amended_checkpoint_witness :
    (saveProgress (runExport 3 (fun _ _ => .ok) (exDocs.take 2) ProgressTracker.init)
        exDocs 2).remaining = exDocs.drop 2 ∧
    (saveProgress (runExport 3 (fun _ _ => .ok) (exDocs.take 2) ProgressTracker.init)
        exDocs 2).completed = 2 ∧
    (runExport 3 (fun _ _ => .ok) (exDocs.take 2) ProgressTracker.init).successful +
      (runExport 3 (fun _ _ => .ok) (exDocs.take 2) ProgressTracker.init).failed = 2 ∧
    (exDocs.Nodup → ∀ d ∈ exDocs.take 2, d ∉ exDocs.drop 2) ∧
    (runExport 3 (fun _ _ => .ok) (exDocs.drop 2) ProgressTracker.init).current =
      (exDocs.drop 2).length :=
  c2_amended_checkpoint 3 (fun _ _ => .ok) exDocs 2 (by decide)

end Scribe

namespace Scribe

/-! ## Shared lemmas: discovery deduplication -/

/-- Shifting the start index of enumFrom by one is a map on the
indices. -/
theorem enumFrom_succ_shift {α : Type} (l : List α) :
    ∀ n : ℕ, List.enumFrom (n + 1) l =
      (List.enumFrom n l).map (fun p => (p.1 + 1, p.2)) := by
  induction l with
  | nil => intro n; rfl
  | cons a l ih =>
    intro n
    rw [List.enumFrom_cons, List.enumFrom_cons, List.map_cons, ih (n + 1)]

/-- The findIndex-based duplicate filter satisfies the expected
recurrence: keep the head, and from the deduplicated tail drop every
entry that shares the head's href. -/
theorem dedupByHref_cons (d : Document) (rest : List Document) :
    dedupByHref (d :: rest) =
      d :: (dedupByHref rest).filter (fun x => !(x.href == d.href)) := by
  unfold dedupByHref
  rw [List.enum_cons]
  rw [List.filter_cons_of_pos (by simp [List.findIdx_cons])]
  rw [List.map_cons]
  congr 1
  have hshift : List.enumFrom 1 rest =
      rest.enum.map (fun p => (p.1 + 1, p.2)) := enumFrom_succ_shift rest 0
  rw [hshift, List.filter_map, List.map_map]
  simp only [Function.comp_def]
  have hsucc : ∀ a b : ℕ, (a + 1 == b + 1) = (a == b) := by
    intro a b
    by_cases h : a = b <;> simp [h]
  have hfun : (fun (p : ℕ × Document) =>
        List.findIdx (fun x => x.href == (p.1 + 1, p.2).2.href) (d :: rest) ==
          (p.1 + 1, p.2).1) =
      (fun (p : ℕ × Document) => !(p.2.href == d.href) &&
        (List.findIdx (fun x => x.href == p.2.href) rest == p.1)) := by
    funext p
    show (List.findIdx (fun x => x.href == p.2.href) (d :: rest) == p.1 + 1) = _
    rw [List.findIdx_cons]
    by_cases hd : d.href = p.2.href
    · have hb : (p.2.href == d.href) = true := by simp [hd]
      simp [hd, hb]
    · have hb : (d.href == p.2.href) = false := by simpa using hd
      have hb2 : (p.2.href == d.href) = false := by
        simpa using fun h => hd h.symm
      simp [hb, hb2, hsucc]
  rw [hfun, List.filter_map, List.filter_filter]
  simp [Function.comp_def, Bool.and_comm]

/-! ## Claim theorems: discovery deduplication -/

/-- C7: the flattened discovery output, deduplicated by the
findIndex filter, mentions each canonical id (href) exactly once
(the list of hrefs is duplicate-free), covers every discovered
document's href, and for each kept entry the entry is exactly the
first-seen sighting in the flattened input — hence it carries the
first-seen folder path. -/
theorem c7_discovery_dedup (docs : List Document) :
    ((dedupByHref docs).map Document.href).Nodup ∧
    (∀ x ∈ docs, ∃ y ∈ dedupByHref docs, y.href = x.href) ∧
    (∀ y ∈ dedupByHref docs, docs.find? (fun x => x.href == y.href) = some y) := by
  induction docs with
  | nil =>
    refine ⟨by simp [dedupByHref], by simp, ?_⟩
    intro y hy
    simp [dedupByHref] at hy
  | cons d rest ih =>
    obtain ⟨ihn, ihc, ihf⟩ := ih
    refine ⟨?_, ?_, ?_⟩
    · rw [dedupByHref_cons, List.map_cons, List.nodup_cons]
      constructor
      · intro hmem
        obtain ⟨y, hy, hyh⟩ := List.mem_map.mp hmem
        have hkeep := (List.mem_filter.mp hy).2
        rw [hyh] at hkeep
        simp at hkeep
      · exact ihn.sublist (List.Sublist.map _ (List.filter_sublist _))
    · intro x hx
      rcases List.mem_cons.mp hx with rfl | hx'
      · exact ⟨x, by rw [dedupByHref_cons]; exact List.mem_cons_self _ _, rfl⟩
      · obtain ⟨y, hy, hyh⟩ := ihc x hx'
        by_cases hyd : y.href = d.href
        · exact ⟨d, by rw [dedupByHref_cons]; exact List.mem_cons_self _ _,
            by rw [← hyd, hyh]⟩
        · refine ⟨y, ?_, hyh⟩
          rw [dedupByHref_cons]
          refine List.mem_cons_of_mem _ (List.mem_filter.mpr ⟨hy, ?_⟩)
          simpa using hyd
    · intro y hy
      rw [dedupByHref_cons] at hy
      rcases List.mem_cons.mp hy with rfl | hy'
      · rw [List.find?_cons]
        simp
      · obtain ⟨hyd, hne⟩ := List.mem_filter.mp hy'
        have hb : (d.href == y.href) = false := by
          simp at hne
          simpa using fun h => hne h.symm
        rw [List.find?_cons, hb]
        exact ihf y hyd

/-- Witness for C7: the spec's two-folder scenario — folders A =
(doc1, doc2), B = (doc2 again, doc3) — deduplicates to exactly doc1,
doc2, doc3, keeping doc2's first sighting (folder A). -/
theorem c7_discovery_dedup_witness :
    exDoc2B ∈ exDocs ∧
    (∃ y ∈ dedupByHref exDocs, y.href = exDoc2B.href) ∧
    dedupByHref exDocs = [exDoc1, exDoc2, exDoc3] :=
  ⟨by decide, (c7_discovery_dedup exDocs).2.1 exDoc2B (by decide), by decide⟩

end Scribe

namespace Scribe

/-! ## Claim theorems: persist filenames and folder recursion -/

/-- C8 counterexample: the persist filename is not both deterministic
and collision-resistant.  In the headless exporter two distinct
documents whose titles sanitise alike ("A-B" and "a b") collide on
the same filename; in the recursive exporter the same document with
the same folder and title gets different filenames at different
Date.now() values, so two runs do not reproduce the filename. -/
theorem c8_counterexample :
    headlessFilename ("A-B") = headlessFilename ("a b") ∧
    ("A-B" : String) ≠ "a b" ∧
    exportFilename ⟨"href1", "Title", "Folder"⟩ 10 ≠
      exportFilename ⟨"href1", "Title", "Folder"⟩ 20 := by
  decide

/-- C8 amended: each exporter's persist filename is a deterministic
function of its inputs — folder path, title and persist-time
timestamp for the recursive exporter (the href plays no role), title
alone for the headless exporter — and in the recursive exporter equal
filenames force equal rendered timestamps, so the timestamp suffix
separates persists whose rendered times differ; but the suffix is the
current time, so filenames are not stable across runs, and the
headless variant has no suffix at all and admits collisions between
distinct documents. -/
theorem c8_amended_filename :
    (∀ (d1 d2 : Document) (ts : ℕ), d1.folder = d2.folder → d1.title = d2.title →
      exportFilename d1 ts = exportFilename d2 ts) ∧
    (∀ t1 t2 : String, cleanTitle t1 = cleanTitle t2 →
      headlessFilename t1 = headlessFilename t2) ∧
    (∀ (d : Document) (ts1 ts2 : ℕ),
      exportFilename d ts1 = exportFilename d ts2 → Nat.repr ts1 = Nat.repr ts2) := by
  refine ⟨?_, ?_, ?_⟩
  · intro d1 d2 ts hf ht
    simp [exportFilename, hf, ht]
  · intro t1 t2 h
    simp [headlessFilename, h]
  · intro d ts1 ts2 h
    unfold exportFilename at h
    have h2 := congrArg String.data h
    simp only [String.data_append] at h2
    exact String.ext (List.append_cancel_left (List.append_cancel_right h2))

/-- Witness for C8's amended statement: determinism is independent of
the href, at a concrete folder, title and timestamp. -/
theorem c8_amended_filename_witness :
    exportFilename ⟨"href-one", "Title", "Folder"⟩ 5 =
      exportFilename ⟨"href-two", "Title", "Folder"⟩ 5 ∧
    headlessFilename ("Doc") = headlessFilename ("Doc") :=
  ⟨c8_amended_filename.1 ⟨"href-one", "Title", "Folder"⟩
      ⟨"href-two", "Title", "Folder"⟩ 5 rfl rfl,
    c8_amended_filename.2.1 ("Doc") ("Doc") rfl⟩

/-- C9 evidence: with a folder detector that reports a plausible
subfolder name on every page — which is what a cyclic or
self-referential hierarchy makes the heuristic text detector do —
the recursion of exploreFolderRecursive never completes within any
call-stack budget.  findSubfolders carries a breadth limit
(slice(0, 10), commented as a loop guard) but the recursion has no
depth bound at all. -/
theorem c9_no_depth_bound :
    ∀ depth : ℕ, exploreWithin (fun _ => ["Playbooks"]) depth [] = false := by
  have hall : ∀ (depth : ℕ) (path : List String),
      exploreWithin (fun _ => ["Playbooks"]) depth path = false := by
    intro depth
    induction depth with
    | zero => intro path; rfl
    | succ n ih =>
      intro path
      have hsub : findSubfolders (["Playbooks"]) = ["Playbooks"] := by decide
      rw [exploreWithin]
      show (findSubfolders (["Playbooks"])).all
          (fun sub => exploreWithin (fun _ => ["Playbooks"]) n (path ++ [sub])) = false
      rw [hsub]
      simp [ih]
  exact fun depth => hall depth []

end Scribe
